import Mathlib

/-
Verification development for the jjidong-tube YouTube search/analysis pipeline.

The TypeScript sources are embedded shallowly:
- JavaScript numbers are idealised as exact rationals, with NaN modelled
  explicitly (`JsNum.nan`); float rounding of huge integer literals and the
  Infinity values are not modelled (the division sites are guarded so that a
  zero divisor is unreachable).
- `parseInt`, the ISO-8601 duration regex, `toFixed`/`parseFloat` rounding and
  `Math.round` are modelled by executable functions below.
- `Array.prototype.sort` with the result comparator is modelled by a stable
  insertion sort; the ECMAScript `SortCompare` normalisation of a NaN
  comparator value to +0 is folded into the comparison predicate.
-/

-- ─── JavaScript number model ────────────────────────────────────────────────

/-- A JavaScript number: either NaN or an (idealised, exact) rational value. -/
inductive JsNum where
  | nan : JsNum
  | num (q : ℚ) : JsNum
deriving DecidableEq

/-- JS `<`: false whenever either side is NaN. -/
def jsLt : JsNum → JsNum → Bool
  | JsNum.num a, JsNum.num b => decide (a < b)
  | _, _ => false

/-- JS `<=`: false whenever either side is NaN. -/
def jsLe : JsNum → JsNum → Bool
  | JsNum.num a, JsNum.num b => decide (a ≤ b)
  | _, _ => false

/-- JS `>`: false whenever either side is NaN. -/
def jsGt : JsNum → JsNum → Bool
  | JsNum.num a, JsNum.num b => decide (b < a)
  | _, _ => false

/-- JS `>=`: false whenever either side is NaN. -/
def jsGe : JsNum → JsNum → Bool
  | JsNum.num a, JsNum.num b => decide (b ≤ a)
  | _, _ => false

/-- JS `===` on numbers: false whenever either side is NaN. -/
def jsEq : JsNum → JsNum → Bool
  | JsNum.num a, JsNum.num b => decide (a = b)
  | _, _ => false

/-- Rational addition written with `Rat.divInt` so that the kernel can
evaluate it (the field operations on `ℚ` are irreducible). -/
def qAdd (a b : ℚ) : ℚ := Rat.divInt (a.num * b.den + b.num * a.den) (a.den * b.den)

/-- Rational subtraction written with `Rat.divInt`. -/
def qSub (a b : ℚ) : ℚ := Rat.divInt (a.num * b.den - b.num * a.den) (a.den * b.den)

/-- Rational division written with `Rat.divInt`. -/
def qDiv (a b : ℚ) : ℚ := Rat.divInt (a.num * b.den) (a.den * b.num)

/-- The constant 1/2 in kernel-evaluable form. -/
def qHalf : ℚ := mkRat 1 2

/-- Scaling by a power of ten in kernel-evaluable form. -/
def qTenPow (p : ℕ) (a : ℚ) : ℚ := Rat.divInt (a.num * (10 : ℤ) ^ p) a.den

/-- JS addition; NaN propagates. -/
def jsAdd : JsNum → JsNum → JsNum
  | JsNum.num a, JsNum.num b => JsNum.num (qAdd a b)
  | _, _ => JsNum.nan

/-- JS subtraction; NaN propagates. -/
def jsSub : JsNum → JsNum → JsNum
  | JsNum.num a, JsNum.num b => JsNum.num (qSub a b)
  | _, _ => JsNum.nan

/-- JS division; NaN propagates.  A zero divisor would give Infinity in JS;
every division site in the sources is guarded so the divisor is a nonzero
number, hence that case is unreachable and mapped to NaN here. -/
def jsDiv : JsNum → JsNum → JsNum
  | JsNum.num a, JsNum.num b => if b = 0 then JsNum.nan else JsNum.num (qDiv a b)
  | _, _ => JsNum.nan

/-- `Math.round`: round half toward positive infinity; NaN propagates. -/
def jsRound : JsNum → JsNum
  | JsNum.num a => JsNum.num ((⌊qAdd a qHalf⌋ : ℤ) : ℚ)
  | JsNum.nan => JsNum.nan

/-- `parseFloat(x.toFixed(p))`: round to `p` decimal places, half toward
positive infinity; `NaN.toFixed` gives `"NaN"` and `parseFloat "NaN"` is NaN. -/
def toFixedRound (p : ℕ) : JsNum → JsNum
  | JsNum.num a => JsNum.num (Rat.divInt ⌊qAdd (qTenPow p a) qHalf⌋ ((10 : ℤ) ^ p))
  | JsNum.nan => JsNum.nan

-- ─── bridges from the kernel-evaluable forms to the field operations ───────

@[simp] theorem qAdd_eq (a b : ℚ) : qAdd a b = a + b := by
  unfold qAdd
  rw [Rat.divInt_eq_div]
  have ha : ((a.den : ℚ)) ≠ 0 := Nat.cast_ne_zero.mpr a.den_nz
  have hb : ((b.den : ℚ)) ≠ 0 := Nat.cast_ne_zero.mpr b.den_nz
  conv_rhs => rw [← Rat.num_div_den a, ← Rat.num_div_den b]
  push_cast
  field_simp

@[simp] theorem qSub_eq (a b : ℚ) : qSub a b = a - b := by
  unfold qSub
  rw [Rat.divInt_eq_div]
  have ha : ((a.den : ℚ)) ≠ 0 := Nat.cast_ne_zero.mpr a.den_nz
  have hb : ((b.den : ℚ)) ≠ 0 := Nat.cast_ne_zero.mpr b.den_nz
  conv_rhs => rw [← Rat.num_div_den a, ← Rat.num_div_den b]
  push_cast
  field_simp
  ring

@[simp] theorem qDiv_eq (a b : ℚ) : qDiv a b = a / b := by
  unfold qDiv
  by_cases hb : b = 0
  · subst hb; simp
  · rw [Rat.divInt_eq_div]
    have ha : ((a.den : ℚ)) ≠ 0 := Nat.cast_ne_zero.mpr a.den_nz
    have hbn : ((b.num : ℚ)) ≠ 0 := by simpa [Rat.num_eq_zero] using hb
    have hbd : ((b.den : ℚ)) ≠ 0 := Nat.cast_ne_zero.mpr b.den_nz
    conv_rhs => rw [← Rat.num_div_den a, ← Rat.num_div_den b]
    push_cast
    field_simp

@[simp] theorem qHalf_eq : qHalf = 1 / 2 := by
  unfold qHalf
  rw [Rat.mkRat_eq_divInt, Rat.divInt_eq_div]
  norm_num

@[simp] theorem qTenPow_eq (p : ℕ) (a : ℚ) : qTenPow p a = a * (10 : ℚ) ^ p := by
  unfold qTenPow
  rw [Rat.divInt_eq_div]
  have ha : ((a.den : ℚ)) ≠ 0 := Nat.cast_ne_zero.mpr a.den_nz
  conv_rhs => rw [← Rat.num_div_den a]
  push_cast
  field_simp

-- ─── parseInt ───────────────────────────────────────────────────────────────

/-- Whitespace skipped by JS `parseInt` (the common ASCII subset). -/
def isJsWhitespace (c : Char) : Bool :=
  c = ' ' ∨ c = '\t' ∨ c = '\n' ∨ c = '\r' ∨ c = '\x0b' ∨ c = '\x0c'

/-- Split a leading run of decimal digits. -/
def takeDigits : List Char → List Char × List Char
  | [] => ([], [])
  | c :: cs =>
    if c.isDigit then
      let p := takeDigits cs
      (c :: p.1, p.2)
    else ([], c :: cs)

/-- Hexadecimal digit test. -/
def isHexDigitChar (c : Char) : Bool :=
  c.isDigit ∨ ('a' ≤ c ∧ c ≤ 'f') ∨ ('A' ≤ c ∧ c ≤ 'F')

/-- Split a leading run of hexadecimal digits. -/
def takeHexDigits : List Char → List Char × List Char
  | [] => ([], [])
  | c :: cs =>
    if isHexDigitChar c then
      let p := takeHexDigits cs
      (c :: p.1, p.2)
    else ([], c :: cs)

/-- Numeric value of a decimal digit run. -/
def digitsToNat (ds : List Char) : ℕ :=
  ds.foldl (fun acc c => 10 * acc + (c.toNat - '0'.toNat)) 0

/-- Numeric value of a single hexadecimal digit. -/
def hexDigitVal (c : Char) : ℕ :=
  if c.isDigit then c.toNat - '0'.toNat
  else if 'a' ≤ c ∧ c ≤ 'f' then c.toNat - 'a'.toNat + 10
  else c.toNat - 'A'.toNat + 10

/-- Numeric value of a hexadecimal digit run. -/
def hexToNat (ds : List Char) : ℕ :=
  ds.foldl (fun acc c => 16 * acc + hexDigitVal c) 0

/-- Unsigned part of `parseInt`: an optional `0x`/`0X` prefix selects radix 16,
otherwise radix 10; no digits gives `none` (NaN). -/
def jsParseNat : List Char → Option ℕ
  | '0' :: 'x' :: r =>
    let ds := (takeHexDigits r).1
    if ds.isEmpty then none else some (hexToNat ds)
  | '0' :: 'X' :: r =>
    let ds := (takeHexDigits r).1
    if ds.isEmpty then none else some (hexToNat ds)
  | cs =>
    let ds := (takeDigits cs).1
    if ds.isEmpty then none else some (digitsToNat ds)

/-- Signed core of `parseInt`: skip leading whitespace, optional sign, then
the longest digit run; trailing characters are ignored. -/
def jsParseIntCore (cs0 : List Char) : Option ℤ :=
  match cs0.dropWhile isJsWhitespace with
  | '-' :: r => (jsParseNat r).map (fun n => -(n : ℤ))
  | '+' :: r => (jsParseNat r).map (fun n => (n : ℤ))
  | r => (jsParseNat r).map (fun n => (n : ℤ))

/-- JS `parseInt` on a string (default radix handling), yielding NaN when no
digits are found. -/
def jsParseInt (s : String) : JsNum :=
  match jsParseIntCore s.data with
  | none => JsNum.nan
  | some k => JsNum.num (k : ℚ)

/-- `jsParseInt` never produces a non-integral rational. -/
theorem jsParseInt_int (s : String) :
    jsParseInt s = JsNum.nan ∨ ∃ k : ℤ, jsParseInt s = JsNum.num (k : ℚ) := by
  unfold jsParseInt
  cases jsParseIntCore s.data with
  | none => exact Or.inl rfl
  | some k => exact Or.inr ⟨k, rfl⟩

/-- The JS number of an integer. -/
def jsOfInt (k : ℤ) : JsNum := JsNum.num (k : ℚ)

-- ─── videoType.ts ───────────────────────────────────────────────────────────

/-- Shorts / long-form distinction (`VideoType` in videoType.ts). -/
inductive VideoType where
  | shorts : VideoType
  | longform : VideoType
deriving DecidableEq

/-- Drop characters up to and including the first occurrence of the literal
`"PT"`; `none` when the literal does not occur (the regex fails to match). -/
def findPT : List Char → Option (List Char)
  | 'P' :: 'T' :: rest => some rest
  | _ :: rest => findPT rest
  | [] => none

/-- One optional regex group `(\d+)X` for a fixed letter `X`: a nonempty digit
run directly followed by the letter is consumed, anything else leaves the
input unchanged and contributes 0 (the group is absent, `parseInt("0")`). -/
def groupFor (letter : Char) (cs : List Char) : ℕ × List Char :=
  let p := takeDigits cs
  match p.2 with
  | c :: rest => if p.1 ≠ [] ∧ c = letter then (digitsToNat p.1, rest) else (0, cs)
  | [] => (0, cs)

/-- `parseDurationToSeconds` from videoType.ts: decode an ISO-8601 duration
with the regex `PT(?:(\d+)H)?(?:(\d+)M)?(?:(\d+)S)?`; no match gives 0. -/
def parseDurationToSeconds (iso8601 : String) : ℕ :=
  match findPT iso8601.data with
  | none => 0
  | some rest =>
    let ph := groupFor 'H' rest
    let pm := groupFor 'M' ph.2
    let ps := groupFor 'S' pm.2
    ph.1 * 3600 + pm.1 * 60 + ps.1

/-- `matchesVideoType` from videoType.ts: shorts are the videos of 1..180
seconds, long-form the ones strictly longer than 180 seconds. -/
def matchesVideoType (durationStr : String) (videoType : VideoType) : Bool :=
  let totalSeconds := parseDurationToSeconds durationStr
  match videoType with
  | VideoType.shorts => decide (0 < totalSeconds ∧ totalSeconds ≤ 180)
  | VideoType.longform => decide (180 < totalSeconds)

-- ─── analysis.ts: scores ────────────────────────────────────────────────────

/-- The five score labels of `ScoreInfo` in analysis.ts. -/
inductive ScoreLabel where
  | Excellent : ScoreLabel
  | Great : ScoreLabel
  | Good : ScoreLabel
  | Normal : ScoreLabel
  | Bad : ScoreLabel
deriving DecidableEq

/-- `ScoreInfo` from analysis.ts. -/
structure ScoreInfo where
  score : ℕ
  label : ScoreLabel
  color : String
deriving DecidableEq

/-- `SCORE_PALETTE` from analysis.ts (dark-theme badge colors, keys 1..5). -/
def scorePalette : ℕ → String
  | 5 => "#f87171"
  | 4 => "#4ade80"
  | 3 => "#60a5fa"
  | 2 => "#cbd5e1"
  | 1 => "#64748b"
  | _ => ""

/-- `calcPerformanceScore` from analysis.ts: five-tier rating of the
view-to-subscriber quotient. -/
def calcPerformanceScore (viewToSubscriberQuot : JsNum) : ScoreInfo :=
  if jsGe viewToSubscriberQuot (JsNum.num 5) then ⟨5, ScoreLabel.Excellent, scorePalette 5⟩
  else if jsGe viewToSubscriberQuot (JsNum.num 3) then ⟨4, ScoreLabel.Great, scorePalette 4⟩
  else if jsGe viewToSubscriberQuot (JsNum.num 1) then ⟨3, ScoreLabel.Good, scorePalette 3⟩
  else if jsGe viewToSubscriberQuot (JsNum.num qHalf) then ⟨2, ScoreLabel.Normal, scorePalette 2⟩
  else ⟨1, ScoreLabel.Bad, scorePalette 1⟩

/-- `calcContributionScore` from analysis.ts: five-tier rating of the video's
views against the channel average; `none` when the average is unusable. -/
def calcContributionScore (viewCount channelAvgViews : JsNum) : Option ScoreInfo :=
  if jsLe channelAvgViews (JsNum.num 0) then none
  else if jsGe (jsDiv viewCount channelAvgViews) (JsNum.num 10) then
    some ⟨5, ScoreLabel.Excellent, scorePalette 5⟩
  else if jsGe (jsDiv viewCount channelAvgViews) (JsNum.num 5) then
    some ⟨4, ScoreLabel.Great, scorePalette 4⟩
  else if jsGe (jsDiv viewCount channelAvgViews) (JsNum.num 1) then
    some ⟨3, ScoreLabel.Good, scorePalette 3⟩
  else if jsGe (jsDiv viewCount channelAvgViews) (JsNum.num qHalf) then
    some ⟨2, ScoreLabel.Normal, scorePalette 2⟩
  else some ⟨1, ScoreLabel.Bad, scorePalette 1⟩

-- ─── client.ts: data types ──────────────────────────────────────────────────

/-- One thumbnail variant of a search snippet. -/
structure Thumbnail where
  url : String
  width : JsNum
  height : JsNum
deriving DecidableEq

/-- The `thumbnails` object of a search snippet (`medium?`, `high?`). -/
structure Thumbnails where
  medium : Option Thumbnail
  high : Option Thumbnail
deriving DecidableEq

/-- The `id` object of a `YouTubeSearchItem`. -/
structure SearchId where
  videoId : String
deriving DecidableEq

/-- The `snippet` object of a `YouTubeSearchItem`. -/
structure SearchSnippet where
  publishedAt : String
  channelId : String
  title : String
  thumbnails : Thumbnails
  channelTitle : String
deriving DecidableEq

/-- `YouTubeSearchItem` from client.ts. -/
structure YouTubeSearchItem where
  id : SearchId
  snippet : SearchSnippet
deriving DecidableEq

/-- The `contentDetails` object of a `YouTubeVideoItem`. -/
structure VideoContentDetails where
  duration : String
deriving DecidableEq

/-- The `statistics` object of a `YouTubeVideoItem`; the platform may omit any
of the counters, and they arrive as decimal strings. -/
structure VideoStatistics where
  viewCount : Option String
  likeCount : Option String
  commentCount : Option String
deriving DecidableEq

/-- `YouTubeVideoItem` from client.ts. -/
structure YouTubeVideoItem where
  id : String
  contentDetails : VideoContentDetails
  statistics : VideoStatistics
deriving DecidableEq

/-- The `relatedPlaylists` object of a channel's `contentDetails`. -/
structure RelatedPlaylists where
  uploads : String
deriving DecidableEq

/-- The optional `contentDetails` object of a `YouTubeChannelItem`. -/
structure ChannelContentDetails where
  relatedPlaylists : RelatedPlaylists
deriving DecidableEq

/-- The `statistics` object of a `YouTubeChannelItem`. -/
structure ChannelStatistics where
  subscriberCount : Option String
  videoCount : Option String
  viewCount : Option String
deriving DecidableEq

/-- `YouTubeChannelItem` from client.ts. -/
structure YouTubeChannelItem where
  id : String
  contentDetails : Option ChannelContentDetails
  statistics : ChannelStatistics
deriving DecidableEq

-- ─── client.ts: youtubeFetch error translation ─────────────────────────────

/-- The closed error taxonomy `YouTubeErrorCode` from client.ts. -/
inductive YouTubeErrorCode where
  | INVALID_API_KEY : YouTubeErrorCode
  | QUOTA_EXCEEDED : YouTubeErrorCode
  | FORBIDDEN : YouTubeErrorCode
  | NOT_FOUND : YouTubeErrorCode
  | NETWORK_ERROR : YouTubeErrorCode
  | UNKNOWN : YouTubeErrorCode
deriving DecidableEq

/-- `YouTubeAPIError` from client.ts (message, taxonomy code, HTTP status). -/
structure YouTubeAPIError where
  message : String
  code : YouTubeErrorCode
  status : Option ℕ
deriving DecidableEq

/-- The parts of a YouTube HTTP response body that `youtubeFetch` and the
operations inspect: `error.errors[0].reason`, `error.message`, `items`.  A
body that fails to parse as JSON is the one with all fields absent. -/
structure ResponseBody where
  errorReason : Option String
  errorMessage : Option String
  items : Option (List String)
deriving DecidableEq

/-- The observable outcome of one `fetch` call: a transport failure (the
`fetch` promise rejects) or an HTTP response with a status and a body. -/
inductive FetchOutcome where
  | transportFailure : FetchOutcome
  | response (status : ℕ) (body : ResponseBody) : FetchOutcome
deriving DecidableEq

/-- `Response.ok`: status in the 2xx range. -/
def resOk (status : ℕ) : Bool := decide (200 ≤ status ∧ status ≤ 299)

/-- `youtubeFetch` from client.ts, as a function of the fetch outcome: either
a `YouTubeAPIError` (the `throw` branches) or the parsed body. -/
def youtubeFetch : FetchOutcome → Except YouTubeAPIError ResponseBody
  | FetchOutcome.transportFailure =>
    Except.error ⟨"YouTube API 네트워크 오류가 발생했습니다.", YouTubeErrorCode.NETWORK_ERROR, none⟩
  | FetchOutcome.response status body =>
    if resOk status then Except.ok body
    else
      let reason := body.errorReason.getD "unknown"
      let message := body.errorMessage.getD "YouTube API 오류가 발생했습니다."
      if status = 400 ∨ reason = "keyInvalid" ∨ reason = "badRequest" then
        Except.error ⟨"유효하지 않은 API Key입니다. 키를 확인해 주세요.",
          YouTubeErrorCode.INVALID_API_KEY, some status⟩
      else if status = 403 then
        if reason = "quotaExceeded" ∨ reason = "dailyLimitExceeded" then
          Except.error ⟨"YouTube API 일일 할당량이 초과되었습니다. 내일 다시 시도하거나 다른 API Key를 사용하세요.",
            YouTubeErrorCode.QUOTA_EXCEEDED, some status⟩
        else
          Except.error ⟨"접근 권한이 없습니다: " ++ message, YouTubeErrorCode.FORBIDDEN, some status⟩
      else if status = 404 then
        Except.error ⟨"리소스를 찾을 수 없습니다.", YouTubeErrorCode.NOT_FOUND, some status⟩
      else
        Except.error ⟨message, YouTubeErrorCode.UNKNOWN, some status⟩

/-- The `data.items ?? []` post-processing every operation in client.ts applies
to a successful `youtubeFetch`. -/
def itemsResult (o : FetchOutcome) : Except YouTubeAPIError (List String) :=
  (youtubeFetch o).map (fun b => b.items.getD [])

/-- The taxonomy code of a `youtubeFetch` result, `none` on success. -/
def errCode : Except YouTubeAPIError ResponseBody → Option YouTubeErrorCode
  | Except.error e => some e.code
  | Except.ok _ => none

/-- A "malformed key" reason of the upstream error payload. -/
def malformedKeyReason (body : ResponseBody) : Bool :=
  body.errorReason.getD "unknown" = "keyInvalid" ∨ body.errorReason.getD "unknown" = "badRequest"

/-- A quota-exhaustion reason of the upstream error payload. -/
def quotaReason (body : ResponseBody) : Bool :=
  body.errorReason.getD "unknown" = "quotaExceeded" ∨
    body.errorReason.getD "unknown" = "dailyLimitExceeded"

-- ─── analysis.ts: channel average ───────────────────────────────────────────

/-- `calcChannelAvgViews` from analysis.ts: mean view count of the samples
matching the requested video type, `Math.round`ed; 0 when no sample matches. -/
def calcChannelAvgViews (videoSamples : List YouTubeVideoItem) (videoType : VideoType) : JsNum :=
  let filtered := videoSamples.filter fun v => matchesVideoType v.contentDetails.duration videoType
  if filtered.length = 0 then JsNum.num 0
  else
    let totalViews := filtered.foldl
      (fun sum v => jsAdd sum (jsParseInt (v.statistics.viewCount.getD "0"))) (JsNum.num 0)
    jsRound (jsDiv totalViews (JsNum.num (filtered.length : ℚ)))

/-- The per-channel map population step of route.ts (`const avg = ...;
if (avg > 0) channelAvgMap.set(channel.id, avg)`): the entry the channel
average map receives for a channel whose playlist sampling succeeded with
`videoSamples`, `none` when no entry is recorded. -/
def channelAvgEntry (videoSamples : List YouTubeVideoItem) (videoType : VideoType) : Option JsNum :=
  let avg := calcChannelAvgViews videoSamples videoType
  if jsGt avg (JsNum.num 0) then some avg else none

-- ─── analysis.ts: result engine ─────────────────────────────────────────────

/-- `VideoResult` from analysis.ts.  The two quotient fields keep the source's
`viewToSubscriberRatio` / `likeToSubscriberRatio` roles under shorter names. -/
structure VideoResult where
  id : String
  title : String
  thumbnail : String
  channelId : String
  channelTitle : String
  publishedAt : String
  viewCount : JsNum
  likeCount : Option JsNum
  subscriberCount : JsNum
  totalVideoCount : JsNum
  viewsPerSubscriber : JsNum
  likesPerSubscriber : Option JsNum
  duration : String
  performanceScore : ScoreInfo
  contributionScore : Option ScoreInfo
  channelAvgViews : Option JsNum
deriving DecidableEq

/-- `BuildFilterOptions` from analysis.ts.  `undefined` and `null` behave
identically at both use sites (`!= null`), so both collapse to `none`. -/
structure BuildFilterOptions where
  minViewCount : Option JsNum
  maxSubscriberCount : Option JsNum
deriving DecidableEq

/-- `new Map(pairs).get(key)`: with duplicate keys the later entry wins, so
lookup finds the last matching pair. -/
def jsMapGet {α : Type} (pairs : List (String × α)) (key : String) : Option α :=
  (pairs.reverse.find? (fun p => p.1 == key)).map (fun p => p.2)

/-- The body of the `for (const searchItem of searchItems)` loop in
`buildAndFilterResults`: `none` for every `continue`, otherwise the record
pushed onto `results`.  The TS consts (`videoId`, `viewCount`, ...) are
inlined. -/
def processItem (videoItems : List YouTubeVideoItem) (channelItems : List YouTubeChannelItem)
    (videoType : VideoType) (channelAvgMap : String → Option JsNum)
    (filters : BuildFilterOptions) (searchItem : YouTubeSearchItem) : Option VideoResult :=
  match jsMapGet (videoItems.map fun v => (v.id, v)) searchItem.id.videoId,
        jsMapGet (channelItems.map fun c => (c.id, c)) searchItem.snippet.channelId with
  | some videoDetail, some channelDetail =>
    if ¬ matchesVideoType videoDetail.contentDetails.duration videoType then none
    else if jsEq (jsParseInt (channelDetail.statistics.subscriberCount.getD "0"))
        (JsNum.num 0) then none
    else if (match filters.maxSubscriberCount with
             | some m => jsGt (jsParseInt (channelDetail.statistics.subscriberCount.getD "0")) m
             | none => false) then none
    else if jsLt (jsParseInt (videoDetail.statistics.viewCount.getD "0"))
        (jsParseInt (channelDetail.statistics.subscriberCount.getD "0")) then none
    else if (match filters.minViewCount with
             | some m => jsLt (jsParseInt (videoDetail.statistics.viewCount.getD "0")) m
             | none => false) then none
    else
      some
        { id := searchItem.id.videoId
          title := searchItem.snippet.title
          thumbnail :=
            match searchItem.snippet.thumbnails.high with
            | some t => t.url
            | none =>
              match searchItem.snippet.thumbnails.medium with
              | some t => t.url
              | none => ""
          channelId := searchItem.snippet.channelId
          channelTitle := searchItem.snippet.channelTitle
          publishedAt := searchItem.snippet.publishedAt
          viewCount := jsParseInt (videoDetail.statistics.viewCount.getD "0")
          likeCount := videoDetail.statistics.likeCount.map jsParseInt
          subscriberCount := jsParseInt (channelDetail.statistics.subscriberCount.getD "0")
          totalVideoCount := jsParseInt (channelDetail.statistics.videoCount.getD "0")
          viewsPerSubscriber := toFixedRound 2
            (jsDiv (jsParseInt (videoDetail.statistics.viewCount.getD "0"))
              (jsParseInt (channelDetail.statistics.subscriberCount.getD "0")))
          likesPerSubscriber := (videoDetail.statistics.likeCount.map jsParseInt).map fun lc =>
            toFixedRound 4 (jsDiv lc (jsParseInt (channelDetail.statistics.subscriberCount.getD "0")))
          duration := videoDetail.contentDetails.duration
          performanceScore := calcPerformanceScore (toFixedRound 2
            (jsDiv (jsParseInt (videoDetail.statistics.viewCount.getD "0"))
              (jsParseInt (channelDetail.statistics.subscriberCount.getD "0"))))
          contributionScore :=
            match channelAvgMap searchItem.snippet.channelId with
            | some a =>
              if jsGt a (JsNum.num 0) then
                calcContributionScore (jsParseInt (videoDetail.statistics.viewCount.getD "0")) a
              else none
            | none => none
          channelAvgViews := channelAvgMap searchItem.snippet.channelId }
  | _, _ => none

/-- The accumulation loop of `buildAndFilterResults`: stop accepting as soon
as the accumulator holds `maxResults` records. -/
def buildLoop (f : YouTubeSearchItem → Option VideoResult) (maxResults : ℕ) :
    List YouTubeSearchItem → List VideoResult → List VideoResult
  | [], acc => acc
  | searchItem :: rest, acc =>
    if maxResults ≤ acc.length then acc
    else
      match f searchItem with
      | some r => buildLoop f maxResults rest (acc ++ [r])
      | none => buildLoop f maxResults rest acc

/-- The value of the sort comparator
`b.performanceScore.score - a.performanceScore.score ||
 b.viewToSubscriberRatio - a.viewToSubscriberRatio`
(a zero score difference is falsy, so the quotient difference is used then). -/
def sortVal (a b : VideoResult) : JsNum :=
  if (b.performanceScore.score : ℤ) - (a.performanceScore.score : ℤ) ≠ 0 then
    JsNum.num (((b.performanceScore.score : ℤ) - (a.performanceScore.score : ℤ) : ℤ) : ℚ)
  else jsSub b.viewsPerSubscriber a.viewsPerSubscriber

/-- `a` may stay before `b` under the comparator: the ECMAScript `SortCompare`
treats a NaN comparator value as +0, i.e. as a tie. -/
def cmpLe (a b : VideoResult) : Bool :=
  match sortVal a b with
  | JsNum.nan => true
  | JsNum.num q => decide (q ≤ 0)

/-- Stable insertion of `x` into `l`: `x` passes over exactly the earlier
elements that may stay before it. -/
def jsInsert {α : Type} (le : α → α → Bool) (x : α) : List α → List α
  | [] => [x]
  | y :: ys => if le x y then x :: y :: ys else y :: jsInsert le x ys

/-- Stable insertion sort, the behaviour of `Array.prototype.sort` under a
consistent comparator (and under any comparator on lists of length ≤ 2). -/
def jsSortList {α : Type} (le : α → α → Bool) : List α → List α
  | [] => []
  | x :: xs => jsInsert le x (jsSortList le xs)

/-- `buildAndFilterResults` from analysis.ts. -/
def buildAndFilterResults (searchItems : List YouTubeSearchItem)
    (videoItems : List YouTubeVideoItem) (channelItems : List YouTubeChannelItem)
    (videoType : VideoType) (channelAvgMap : String → Option JsNum)
    (filters : BuildFilterOptions) (maxResults : ℕ) : List VideoResult :=
  jsSortList cmpLe
    (buildLoop (processItem videoItems channelItems videoType channelAvgMap filters)
      maxResults searchItems [])

-- ─── route.ts: final build stage and response ──────────────────────────────

/-- The success response shape of route.ts: `{ videos: results, total:
results.length }`. -/
structure SearchResponse where
  videos : List VideoResult
  total : ℕ
deriving DecidableEq

/-- The final stage of the route.ts `POST` handler: it calls
`buildAndFilterResults` with an explicit result budget of 100 (not the
function's default of 30) and answers with the records and their count. -/
def routeBuildStage (allSearchItems : List YouTubeSearchItem)
    (videoItems : List YouTubeVideoItem) (channelItems : List YouTubeChannelItem)
    (videoType : VideoType) (channelAvgMap : String → Option JsNum)
    (filters : BuildFilterOptions) : SearchResponse :=
  let results := buildAndFilterResults allSearchItems videoItems channelItems
    videoType channelAvgMap filters 100
  ⟨results, results.length⟩

-- ─── small lemmas about the JS comparisons ─────────────────────────────────

@[simp] theorem jsLt_num (a b : ℚ) : jsLt (JsNum.num a) (JsNum.num b) = decide (a < b) := rfl

@[simp] theorem jsLe_num (a b : ℚ) : jsLe (JsNum.num a) (JsNum.num b) = decide (a ≤ b) := rfl

@[simp] theorem jsGt_num (a b : ℚ) : jsGt (JsNum.num a) (JsNum.num b) = decide (b < a) := rfl

@[simp] theorem jsGe_num (a b : ℚ) : jsGe (JsNum.num a) (JsNum.num b) = decide (b ≤ a) := rfl

@[simp] theorem jsEq_num (a b : ℚ) : jsEq (JsNum.num a) (JsNum.num b) = decide (a = b) := rfl

@[simp] theorem jsDiv_num (a b : ℚ) :
    jsDiv (JsNum.num a) (JsNum.num b) = if b = 0 then JsNum.nan else JsNum.num (a / b) := by
  simp [jsDiv]

-- ─── C2: performance-score tiers ────────────────────────────────────────────

/-- C2: for every non-negative quotient r, `calcPerformanceScore` returns
score 5 "Excellent" when r ≥ 5, score 4 "Great" when 3 ≤ r < 5, score 3
"Good" when 1 ≤ r < 3, score 2 "Normal" when 0.5 ≤ r < 1, and score 1 "Bad"
when r < 0.5; and viewCount 1,000,000 with subscriberCount 200,000 gives the
quotient 5.00 and the score {5, Excellent}. -/
theorem c2_performance_score_tiers :
    (∀ r : ℚ, 0 ≤ r →
      (5 ≤ r → calcPerformanceScore (JsNum.num r) = ⟨5, ScoreLabel.Excellent, "#f87171"⟩) ∧
      (3 ≤ r → r < 5 → calcPerformanceScore (JsNum.num r) = ⟨4, ScoreLabel.Great, "#4ade80"⟩) ∧
      (1 ≤ r → r < 3 → calcPerformanceScore (JsNum.num r) = ⟨3, ScoreLabel.Good, "#60a5fa"⟩) ∧
      (1 / 2 ≤ r → r < 1 → calcPerformanceScore (JsNum.num r) = ⟨2, ScoreLabel.Normal, "#cbd5e1"⟩) ∧
      (r < 1 / 2 → calcPerformanceScore (JsNum.num r) = ⟨1, ScoreLabel.Bad, "#64748b"⟩)) ∧
    toFixedRound 2 (jsDiv (JsNum.num 1000000) (JsNum.num 200000)) = JsNum.num 5 ∧
    calcPerformanceScore (JsNum.num 5) = ⟨5, ScoreLabel.Excellent, "#f87171"⟩ := by
  refine ⟨fun r _ => ⟨?_, ?_, ?_, ?_, ?_⟩, by decide, by decide⟩ <;>
    intros <;>
    simp only [calcPerformanceScore, jsGe_num, qHalf_eq, decide_eq_true_eq, scorePalette] <;>
    split_ifs <;> first | rfl | (exfalso; linarith)

/-- Witness for C2 at r = 4 (tier "Great"). -/
theorem c2_performance_score_tiers_witness :
    calcPerformanceScore (JsNum.num 4) = ⟨4, ScoreLabel.Great, "#4ade80"⟩ :=
  ((c2_performance_score_tiers.1 4 (by norm_num)).2.1 (by norm_num) (by norm_num))

-- ─── C5: contribution-score tiers ───────────────────────────────────────────

/-- C5: for every viewCount v ≥ 0 and channel average a, `calcContributionScore`
is `none` exactly when a ≤ 0; otherwise, with q = v / a, it returns score 5
when q ≥ 10, 4 when q ≥ 5, 3 when q ≥ 1, 2 when q ≥ 0.5 and 1 otherwise,
with the labels of the five-tier performance scale. -/
theorem c5_contribution_score_tiers (v a : ℚ) (_hv : 0 ≤ v) :
    (calcContributionScore (JsNum.num v) (JsNum.num a) = none ↔ a ≤ 0) ∧
    (0 < a →
      (10 ≤ v / a →
        calcContributionScore (JsNum.num v) (JsNum.num a) = some ⟨5, ScoreLabel.Excellent, "#f87171"⟩) ∧
      (5 ≤ v / a → v / a < 10 →
        calcContributionScore (JsNum.num v) (JsNum.num a) = some ⟨4, ScoreLabel.Great, "#4ade80"⟩) ∧
      (1 ≤ v / a → v / a < 5 →
        calcContributionScore (JsNum.num v) (JsNum.num a) = some ⟨3, ScoreLabel.Good, "#60a5fa"⟩) ∧
      (1 / 2 ≤ v / a → v / a < 1 →
        calcContributionScore (JsNum.num v) (JsNum.num a) = some ⟨2, ScoreLabel.Normal, "#cbd5e1"⟩) ∧
      (v / a < 1 / 2 →
        calcContributionScore (JsNum.num v) (JsNum.num a) = some ⟨1, ScoreLabel.Bad, "#64748b"⟩)) := by
  constructor
  · constructor
    · intro h
      by_contra hpos
      push_neg at hpos
      simp only [calcContributionScore, jsLe_num, decide_eq_true_eq, jsDiv_num,
        if_neg (not_le.mpr hpos), if_neg (ne_of_gt hpos)] at h
      split_ifs at h
    · intro h
      simp only [calcContributionScore, jsLe_num, decide_eq_true_eq, if_pos h]
  · intro hpos
    refine ⟨?_, ?_, ?_, ?_, ?_⟩ <;>
      intros <;>
      simp only [calcContributionScore, jsLe_num, decide_eq_true_eq, jsDiv_num,
        if_neg (not_le.mpr hpos), if_neg (ne_of_gt hpos), jsGe_num, qHalf_eq, scorePalette] <;>
      split_ifs <;> first | rfl | (exfalso; linarith)

/-- Witness for C5 at v = 7, a = 1 (quotient 7, tier "Great"). -/
theorem c5_contribution_score_tiers_witness :
    calcContributionScore (JsNum.num 7) (JsNum.num 1) = some ⟨4, ScoreLabel.Great, "#4ade80"⟩ :=
  ((c5_contribution_score_tiers 7 1 (by norm_num)).2 (by norm_num)).2.1 (by norm_num) (by norm_num)

-- ─── C3: category classification boundary ───────────────────────────────────

/-- C3 counterexample: a duration decoding to 0 seconds does NOT classify as
long-form (nor as short-form) — `matchesVideoType` rejects it for both
categories, while the claim says it classifies as long-form. -/
theorem c3_duration_boundary_counterexample :
    parseDurationToSeconds "PT0S" = 0 ∧
    matchesVideoType "PT0S" VideoType.longform = false ∧
    matchesVideoType "PT0S" VideoType.shorts = false := by
  decide

/-- C3 (amended): a duration decoding to 180 seconds classifies as short-form
and 181 seconds as long-form; in general short-form holds iff 0 < seconds ≤
180 and long-form holds iff seconds > 180, so a duration decoding to 0
seconds matches neither category. -/
theorem c3_duration_boundary (d : String) :
    (matchesVideoType d VideoType.shorts = true ↔
      0 < parseDurationToSeconds d ∧ parseDurationToSeconds d ≤ 180) ∧
    (matchesVideoType d VideoType.longform = true ↔ 180 < parseDurationToSeconds d) ∧
    (parseDurationToSeconds d = 180 →
      matchesVideoType d VideoType.shorts = true ∧ matchesVideoType d VideoType.longform = false) ∧
    (parseDurationToSeconds d = 181 →
      matchesVideoType d VideoType.longform = true ∧ matchesVideoType d VideoType.shorts = false) ∧
    (parseDurationToSeconds d = 0 →
      matchesVideoType d VideoType.shorts = false ∧ matchesVideoType d VideoType.longform = false) := by
  refine ⟨by simp [matchesVideoType], by simp [matchesVideoType], ?_, ?_, ?_⟩ <;>
    intro h <;> constructor <;> simp [matchesVideoType, h]

/-- Witness for C3 (amended) at the boundary durations "PT3M" (180 s) and
"PT3M1S" (181 s). -/
theorem c3_duration_boundary_witness :
    (matchesVideoType "PT3M" VideoType.shorts = true ∧
      matchesVideoType "PT3M" VideoType.longform = false) ∧
    (matchesVideoType "PT3M1S" VideoType.longform = true ∧
      matchesVideoType "PT3M1S" VideoType.shorts = false) :=
  ⟨(c3_duration_boundary "PT3M").2.2.1 (by decide),
   (c3_duration_boundary "PT3M1S").2.2.2.1 (by decide)⟩

-- ─── C7: API client error translation ───────────────────────────────────────

/-- C7: the error translation of the API client is exhaustive over the closed
taxonomy: a transport failure gives NETWORK_ERROR; a 2xx response is a success
whose operations return `items ?? []` (an empty or absent items list is a
success with the empty list, never an error); status 400 or a malformed-key
reason gives INVALID_API_KEY; status 403 with a quota reason gives
QUOTA_EXCEEDED and otherwise FORBIDDEN; status 404 gives NOT_FOUND; any other
non-ok response gives UNKNOWN carrying the upstream message. -/
theorem c7_error_taxonomy (status : ℕ) (body : ResponseBody) :
    (youtubeFetch FetchOutcome.transportFailure =
      Except.error ⟨"YouTube API 네트워크 오류가 발생했습니다.", YouTubeErrorCode.NETWORK_ERROR, none⟩) ∧
    (resOk status = true →
      youtubeFetch (FetchOutcome.response status body) = Except.ok body ∧
      itemsResult (FetchOutcome.response status body) = Except.ok (body.items.getD [])) ∧
    (status = 400 →
      errCode (youtubeFetch (FetchOutcome.response status body)) =
        some YouTubeErrorCode.INVALID_API_KEY) ∧
    (malformedKeyReason body = true → resOk status = false →
      errCode (youtubeFetch (FetchOutcome.response status body)) =
        some YouTubeErrorCode.INVALID_API_KEY) ∧
    (status = 403 → quotaReason body = true →
      errCode (youtubeFetch (FetchOutcome.response status body)) =
        some YouTubeErrorCode.QUOTA_EXCEEDED) ∧
    (status = 403 → malformedKeyReason body = false → quotaReason body = false →
      errCode (youtubeFetch (FetchOutcome.response status body)) =
        some YouTubeErrorCode.FORBIDDEN) ∧
    (status = 404 → malformedKeyReason body = false →
      errCode (youtubeFetch (FetchOutcome.response status body)) =
        some YouTubeErrorCode.NOT_FOUND) ∧
    (resOk status = false → status ≠ 400 → status ≠ 403 → status ≠ 404 →
      malformedKeyReason body = false →
      youtubeFetch (FetchOutcome.response status body) =
        Except.error ⟨body.errorMessage.getD "YouTube API 오류가 발생했습니다.",
          YouTubeErrorCode.UNKNOWN, some status⟩) := by
  refine ⟨rfl, ?_, ?_, ?_, ?_, ?_, ?_, ?_⟩
  · intro hok
    refine ⟨by simp [youtubeFetch, hok], ?_⟩
    simp [itemsResult, youtubeFetch, hok, Except.map]
  · intro h400
    subst h400
    simp [youtubeFetch, errCode, resOk]
  · intro hmal hok
    rw [malformedKeyReason, decide_eq_true_eq] at hmal
    rcases hmal with hr | hr <;> simp [youtubeFetch, errCode, hok, hr]
  · intro h403 hquota
    subst h403
    rw [quotaReason, decide_eq_true_eq] at hquota
    rcases hquota with hr | hr <;> simp [youtubeFetch, errCode, resOk, hr]
  · intro h403 hmal hquota
    subst h403
    rw [malformedKeyReason, decide_eq_false_iff_not] at hmal
    rw [quotaReason, decide_eq_false_iff_not] at hquota
    push_neg at hmal hquota
    simp [youtubeFetch, errCode, resOk, hmal.1, hmal.2, hquota.1, hquota.2]
  · intro h404 hmal
    subst h404
    rw [malformedKeyReason, decide_eq_false_iff_not] at hmal
    push_neg at hmal
    simp [youtubeFetch, errCode, resOk, hmal.1, hmal.2]
  · intro hok h400 h403 h404 hmal
    rw [malformedKeyReason, decide_eq_false_iff_not] at hmal
    push_neg at hmal
    simp [youtubeFetch, errCode, hok, h400, h403, h404, hmal.1, hmal.2]

/-- Witness for C7: a concrete quota-exhausted 403 response maps to
QUOTA_EXCEEDED, a concrete 400 response maps to INVALID_API_KEY, and a
concrete 200 response with an empty items list is a success with `[]`. -/
theorem c7_error_taxonomy_witness :
    errCode (youtubeFetch (FetchOutcome.response 403 ⟨some "quotaExceeded", none, none⟩)) =
      some YouTubeErrorCode.QUOTA_EXCEEDED ∧
    errCode (youtubeFetch (FetchOutcome.response 400 ⟨none, none, none⟩)) =
      some YouTubeErrorCode.INVALID_API_KEY ∧
    itemsResult (FetchOutcome.response 200 ⟨none, none, some []⟩) = Except.ok [] :=
  ⟨(c7_error_taxonomy 403 ⟨some "quotaExceeded", none, none⟩).2.2.2.2.1 rfl (by decide),
   (c7_error_taxonomy 400 ⟨none, none, none⟩).2.2.1 rfl,
   ((c7_error_taxonomy 200 ⟨none, none, some []⟩).2.1 (by decide)).2⟩

-- ─── more bridges ───────────────────────────────────────────────────────────

@[simp] theorem jsAdd_num (a b : ℚ) : jsAdd (JsNum.num a) (JsNum.num b) = JsNum.num (a + b) := by
  simp [jsAdd]

@[simp] theorem jsSub_num (a b : ℚ) : jsSub (JsNum.num a) (JsNum.num b) = JsNum.num (a - b) := by
  simp [jsSub]

@[simp] theorem jsRound_num (a : ℚ) :
    jsRound (JsNum.num a) = JsNum.num ((⌊a + 1 / 2⌋ : ℤ) : ℚ) := by
  simp [jsRound]

@[simp] theorem toFixedRound_num (p : ℕ) (a : ℚ) :
    toFixedRound p (JsNum.num a) =
      JsNum.num ((⌊a * (10 : ℚ) ^ p + 1 / 2⌋ : ℤ) / (10 : ℚ) ^ p) := by
  simp [toFixedRound, Rat.divInt_eq_div]

-- ─── C8: channel average estimation ─────────────────────────────────────────

/-- Folding the JS summation of parsed view counts over videos whose parses
are the integers `vals` yields the exact integer sum. -/
theorem foldl_jsAdd_parsed (l : List YouTubeVideoItem) (vals : List ℤ) (q0 : ℚ)
    (h : l.map (fun v => jsParseInt (v.statistics.viewCount.getD "0")) =
      vals.map jsOfInt) :
    l.foldl (fun sum v => jsAdd sum (jsParseInt (v.statistics.viewCount.getD "0")))
      (JsNum.num q0) = JsNum.num (q0 + (vals.sum : ℚ)) := by
  induction l generalizing vals q0 with
  | nil =>
    cases vals with
    | nil => simp
    | cons k ks => simp at h
  | cons v l ih =>
    cases vals with
    | nil => simp at h
    | cons k ks =>
      rw [List.map_cons, List.map_cons] at h
      injection h with h1 h2
      rw [List.foldl_cons, h1, jsOfInt, jsAdd_num, ih ks (q0 + (k : ℚ)) h2]
      congr 1
      push_cast
      rw [List.map_cons, List.sum_cons]
      ring

/-- C8: `calcChannelAvgViews` keeps exactly the samples whose decoded duration
matches the requested category and returns the arithmetic mean of their parsed
view counts rounded to the nearest integer; with zero matching samples it
returns 0, the channel-average map receives no entry (the absent entry is the
"unknown" marker), and the map never records a non-positive (in particular
zero) average. -/
theorem c8_channel_average (samples : List YouTubeVideoItem) (vt : VideoType) :
    (∀ vals : List ℤ,
      (samples.filter fun v => matchesVideoType v.contentDetails.duration vt).map
          (fun v => jsParseInt (v.statistics.viewCount.getD "0")) =
        vals.map jsOfInt →
      vals ≠ [] →
      calcChannelAvgViews samples vt =
        JsNum.num ((⌊(vals.sum : ℚ) / (vals.length : ℚ) + 1 / 2⌋ : ℤ) : ℚ)) ∧
    ((samples.filter fun v => matchesVideoType v.contentDetails.duration vt) = [] →
      calcChannelAvgViews samples vt = JsNum.num 0 ∧ channelAvgEntry samples vt = none) ∧
    (∀ a, channelAvgEntry samples vt = some a → jsGt a (JsNum.num 0) = true) := by
  refine ⟨?_, ?_, ?_⟩
  · intro vals hmap hne
    have hlen : (samples.filter fun v =>
        matchesVideoType v.contentDetails.duration vt).length = vals.length := by
      have := congrArg List.length hmap
      simpa using this
    have hlen0 : vals.length ≠ 0 := fun h => hne (List.length_eq_zero.mp h)
    unfold calcChannelAvgViews
    rw [if_neg (by omega)]
    rw [foldl_jsAdd_parsed _ vals 0 hmap]
    rw [hlen]
    have hq : ((vals.length : ℚ)) ≠ 0 := Nat.cast_ne_zero.mpr hlen0
    simp [jsDiv, hq, zero_add]
  · intro hempty
    have h1 : calcChannelAvgViews samples vt = JsNum.num 0 := by
      unfold calcChannelAvgViews
      rw [hempty]
      simp
    refine ⟨h1, ?_⟩
    unfold channelAvgEntry
    rw [h1]
    simp [jsGt]
  · intro a ha
    unfold channelAvgEntry at ha
    by_cases h : jsGt (calcChannelAvgViews samples vt) (JsNum.num 0) = true
    · rw [if_pos h] at ha
      cases ha
      exact h
    · rw [if_neg h] at ha
      cases ha

/-- Witness for C8: three samples of which the two long-form ones have view
counts 10 and 15; the mean 12.5 rounds to 13, and a shorts-only sample list
yields no map entry. -/
theorem c8_channel_average_witness :
    calcChannelAvgViews
        [⟨"a", ⟨"PT4M"⟩, ⟨some "10", none, none⟩⟩, ⟨"b", ⟨"PT1M"⟩, ⟨some "999", none, none⟩⟩,
          ⟨"c", ⟨"PT5M"⟩, ⟨some "15", none, none⟩⟩] VideoType.longform =
      JsNum.num ((⌊((([10, 15] : List ℤ).sum : ℚ)) / ((([10, 15] : List ℤ).length : ℚ)) + 1 / 2⌋ : ℤ) : ℚ) ∧
    calcChannelAvgViews [⟨"b", ⟨"PT1M"⟩, ⟨some "999", none, none⟩⟩] VideoType.longform =
      JsNum.num 0 ∧
    channelAvgEntry [⟨"b", ⟨"PT1M"⟩, ⟨some "999", none, none⟩⟩] VideoType.longform = none :=
  ⟨(c8_channel_average _ VideoType.longform).1 [10, 15] (by decide) (by decide),
   ((c8_channel_average _ VideoType.longform).2.1 (by decide)).1,
   ((c8_channel_average _ VideoType.longform).2.1 (by decide)).2⟩

-- ─── sort lemmas ────────────────────────────────────────────────────────────

theorem mem_jsInsert {α : Type} (le : α → α → Bool) (x a : α) (l : List α) :
    a ∈ jsInsert le x l ↔ a = x ∨ a ∈ l := by
  induction l with
  | nil => simp [jsInsert]
  | cons y ys ih =>
    rw [jsInsert]
    by_cases h : le x y = true
    · rw [if_pos h]
      simp [List.mem_cons]
    · rw [if_neg h]
      simp only [List.mem_cons, ih]
      tauto

theorem jsInsert_perm {α : Type} (le : α → α → Bool) (x : α) (l : List α) :
    List.Perm (jsInsert le x l) (x :: l) := by
  induction l with
  | nil => exact List.Perm.refl _
  | cons y ys ih =>
    rw [jsInsert]
    by_cases h : le x y = true
    · rw [if_pos h]
    · rw [if_neg h]
      exact (ih.cons y).trans (List.Perm.swap x y ys)

theorem jsSortList_perm {α : Type} (le : α → α → Bool) (l : List α) :
    List.Perm (jsSortList le l) l := by
  induction l with
  | nil => exact List.Perm.refl _
  | cons x xs ih =>
    rw [jsSortList]
    exact (jsInsert_perm le x (jsSortList le xs)).trans (ih.cons x)

theorem pairwise_jsInsert {α : Type} (le : α → α → Bool) (x : α) (l : List α)
    (hs : l.Pairwise (fun a b => le a b = true))
    (tot : ∀ b ∈ l, le x b = true ∨ le b x = true)
    (tr : ∀ b ∈ l, ∀ c ∈ l, le x b = true → le b c = true → le x c = true) :
    (jsInsert le x l).Pairwise (fun a b => le a b = true) := by
  induction l with
  | nil => simp [jsInsert]
  | cons y ys ih =>
    rw [List.pairwise_cons] at hs
    rw [jsInsert]
    by_cases hxy : le x y = true
    · rw [if_pos hxy]
      refine List.Pairwise.cons ?_ (List.pairwise_cons.mpr hs)
      intro b hb
      rcases List.mem_cons.mp hb with rfl | hb
      · exact hxy
      · exact tr y (List.mem_cons_self y ys) b (List.mem_cons_of_mem y hb) hxy (hs.1 b hb)
    · rw [if_neg hxy]
      refine List.Pairwise.cons ?_ ?_
      · intro b hb
        rcases (mem_jsInsert le x b ys).mp hb with hbx | hb
        · subst hbx
          rcases tot y (List.mem_cons_self y ys) with h | h
          · exact absurd h hxy
          · exact h
        · exact hs.1 b hb
      · exact ih hs.2 (fun b hb => tot b (List.mem_cons_of_mem y hb))
          (fun b hb c hc => tr b (List.mem_cons_of_mem y hb) c (List.mem_cons_of_mem y hc))

theorem pairwise_jsSortList {α : Type} (le : α → α → Bool) (l : List α)
    (tot : ∀ a ∈ l, ∀ b ∈ l, le a b = true ∨ le b a = true)
    (tr : ∀ a ∈ l, ∀ b ∈ l, ∀ c ∈ l, le a b = true → le b c = true → le a c = true) :
    (jsSortList le l).Pairwise (fun a b => le a b = true) := by
  induction l with
  | nil => exact List.Pairwise.nil
  | cons x xs ih =>
    rw [jsSortList]
    have hmem : ∀ b ∈ jsSortList le xs, b ∈ xs :=
      fun b hb => (jsSortList_perm le xs).mem_iff.mp hb
    refine pairwise_jsInsert le x (jsSortList le xs) ?_ ?_ ?_
    · exact ih
        (fun a ha b hb => tot a (List.mem_cons_of_mem x ha) b (List.mem_cons_of_mem x hb))
        (fun a ha b hb c hc => tr a (List.mem_cons_of_mem x ha) b (List.mem_cons_of_mem x hb)
          c (List.mem_cons_of_mem x hc))
    · exact fun b hb => tot x (List.mem_cons_self x xs) b (List.mem_cons_of_mem x (hmem b hb))
    · exact fun b hb c hc => tr x (List.mem_cons_self x xs) b (List.mem_cons_of_mem x (hmem b hb))
        c (List.mem_cons_of_mem x (hmem c hc))

-- ─── build-loop lemmas ──────────────────────────────────────────────────────

theorem mem_buildLoop (f : YouTubeSearchItem → Option VideoResult) (maxResults : ℕ)
    (l : List YouTubeSearchItem) (acc : List VideoResult) (r : VideoResult)
    (h : r ∈ buildLoop f maxResults l acc) :
    r ∈ acc ∨ ∃ s ∈ l, f s = some r := by
  induction l generalizing acc with
  | nil => exact Or.inl h
  | cons s rest ih =>
    rw [buildLoop] at h
    by_cases hlen : maxResults ≤ acc.length
    · rw [if_pos hlen] at h
      exact Or.inl h
    · rw [if_neg hlen] at h
      cases hf : f s with
      | some v =>
        rw [hf] at h
        rcases ih (acc ++ [v]) h with hacc | ⟨s', hs', hfs'⟩
        · rcases List.mem_append.mp hacc with h1 | h2
          · exact Or.inl h1
          · refine Or.inr ⟨s, List.mem_cons_self s rest, ?_⟩
            rw [hf, List.mem_singleton.mp h2]
        · exact Or.inr ⟨s', List.mem_cons_of_mem s hs', hfs'⟩
      | none =>
        rw [hf] at h
        rcases ih acc h with hacc | ⟨s', hs', hfs'⟩
        · exact Or.inl hacc
        · exact Or.inr ⟨s', List.mem_cons_of_mem s hs', hfs'⟩

theorem buildLoop_length_le (f : YouTubeSearchItem → Option VideoResult) (maxResults : ℕ)
    (l : List YouTubeSearchItem) (acc : List VideoResult) (h : acc.length ≤ maxResults) :
    (buildLoop f maxResults l acc).length ≤ maxResults := by
  induction l generalizing acc with
  | nil => exact h
  | cons s rest ih =>
    rw [buildLoop]
    by_cases hlen : maxResults ≤ acc.length
    · rw [if_pos hlen]
      exact h
    · rw [if_neg hlen]
      cases f s with
      | some v =>
        refine ih (acc ++ [v]) ?_
        rw [List.length_append, List.length_singleton]
        omega
      | none => exact ih acc h

theorem mem_buildAndFilterResults (searchItems : List YouTubeSearchItem)
    (videoItems : List YouTubeVideoItem) (channelItems : List YouTubeChannelItem)
    (videoType : VideoType) (channelAvgMap : String → Option JsNum)
    (filters : BuildFilterOptions) (maxResults : ℕ) (r : VideoResult)
    (h : r ∈ buildAndFilterResults searchItems videoItems channelItems videoType
      channelAvgMap filters maxResults) :
    ∃ s ∈ searchItems,
      processItem videoItems channelItems videoType channelAvgMap filters s = some r := by
  unfold buildAndFilterResults at h
  have h2 := (jsSortList_perm cmpLe _).mem_iff.mp h
  rcases mem_buildLoop _ _ _ _ _ h2 with hacc | hexists
  · cases hacc
  · exact hexists

-- ─── processItem characterization ───────────────────────────────────────────

theorem jsMapGet_map_spec {α : Type} (items : List α) (f : α → String) (key : String) (a : α)
    (h : jsMapGet (items.map fun v => (f v, v)) key = some a) :
    a ∈ items ∧ f a = key := by
  unfold jsMapGet at h
  cases hf : (items.map fun v => (f v, v)).reverse.find? (fun p => p.1 == key) with
  | none => rw [hf] at h; cases h
  | some p =>
    rw [hf] at h
    have hpa : p.2 = a := by
      simpa using h
    have hpred := List.find?_some hf
    have hmem := List.mem_of_find?_eq_some hf
    rw [List.mem_reverse] at hmem
    rcases List.mem_map.mp hmem with ⟨v, hv, heq⟩
    have hp1 : p.1 = key := by
      simpa using hpred
    subst hpa
    constructor
    · rw [← heq]
      exact hv
    · rw [← heq] at hp1 ⊢
      exact hp1

theorem processItem_spec (videoItems : List YouTubeVideoItem)
    (channelItems : List YouTubeChannelItem) (videoType : VideoType)
    (channelAvgMap : String → Option JsNum) (filters : BuildFilterOptions)
    (s : YouTubeSearchItem) (r : VideoResult)
    (h : processItem videoItems channelItems videoType channelAvgMap filters s = some r) :
    ∃ vd cd, vd ∈ videoItems ∧ vd.id = s.id.videoId ∧ cd ∈ channelItems ∧
      cd.id = s.snippet.channelId ∧
      r.id = s.id.videoId ∧ r.channelId = s.snippet.channelId ∧
      r.viewCount = jsParseInt (vd.statistics.viewCount.getD "0") ∧
      r.subscriberCount = jsParseInt (cd.statistics.subscriberCount.getD "0") ∧
      jsEq r.subscriberCount (JsNum.num 0) = false ∧
      jsLt r.viewCount r.subscriberCount = false ∧
      r.viewsPerSubscriber = toFixedRound 2 (jsDiv r.viewCount r.subscriberCount) ∧
      r.performanceScore = calcPerformanceScore r.viewsPerSubscriber ∧
      r.channelAvgViews = channelAvgMap s.snippet.channelId ∧
      r.contributionScore = (match channelAvgMap s.snippet.channelId with
        | some a => if jsGt a (JsNum.num 0) = true then calcContributionScore r.viewCount a
                    else none
        | none => none) := by
  unfold processItem at h
  cases hv : jsMapGet (videoItems.map fun v => (v.id, v)) s.id.videoId with
  | none => rw [hv] at h; cases h
  | some vd =>
  cases hc : jsMapGet (channelItems.map fun c => (c.id, c)) s.snippet.channelId with
  | none => rw [hv, hc] at h; cases h
  | some cd =>
    rw [hv, hc] at h
    simp only at h
    split_ifs at h with h1 h2 h3 h4 h5
    obtain ⟨hvmem, hvid⟩ := jsMapGet_map_spec videoItems _ _ vd hv
    obtain ⟨hcmem, hcid⟩ := jsMapGet_map_spec channelItems _ _ cd hc
    have h2' : jsEq (jsParseInt (cd.statistics.subscriberCount.getD "0")) (JsNum.num 0) = false := by
      revert h2
      cases jsEq (jsParseInt (cd.statistics.subscriberCount.getD "0")) (JsNum.num 0) <;> simp
    have h4' : jsLt (jsParseInt (vd.statistics.viewCount.getD "0"))
        (jsParseInt (cd.statistics.subscriberCount.getD "0")) = false := by
      revert h4
      cases jsLt (jsParseInt (vd.statistics.viewCount.getD "0"))
        (jsParseInt (cd.statistics.subscriberCount.getD "0")) <;> simp
    cases h
    exact ⟨vd, cd, hvmem, hvid, hcmem, hcid, rfl, rfl, rfl, rfl, h2', h4', rfl, rfl, rfl, rfl⟩

-- ─── concrete fixtures ──────────────────────────────────────────────────────

/-- A search item with the given video and channel ids. -/
def fixSearch (v c : String) : YouTubeSearchItem :=
  ⟨⟨v⟩, ⟨"2025-01-01T00:00:00Z", c, "title", ⟨none, none⟩, "chan"⟩⟩

/-- A video item with the given id, encoded duration and view-count string. -/
def fixVideo (v dur vc : String) : YouTubeVideoItem := ⟨v, ⟨dur⟩, ⟨some vc, none, none⟩⟩

/-- A channel item with the given id and subscriber-count string. -/
def fixChan (c sub : String) : YouTubeChannelItem := ⟨c, none, ⟨some sub, some "2", none⟩⟩

/-- No optional filters. -/
def noFilters : BuildFilterOptions := ⟨none, none⟩

/-- An empty channel-average map. -/
def emptyAvgMap : String → Option JsNum := fun _ => none

-- ─── C1: record invariant ───────────────────────────────────────────────────

/-- The per-record invariant of C1 as a decidable check: the subscriber count
is a number s with 1 ≤ s, the view count a number v with s ≤ v, and the
record's video and channel ids both resolved in the join. -/
def c1check (videoItems : List YouTubeVideoItem) (channelItems : List YouTubeChannelItem)
    (r : VideoResult) : Bool :=
  (match r.subscriberCount, r.viewCount with
   | JsNum.num s, JsNum.num v => decide (1 ≤ s ∧ s ≤ v)
   | _, _ => false) &&
  videoItems.any (fun vd => vd.id == r.id) &&
  channelItems.any (fun cd => cd.id == r.channelId)

/-- C1 counterexample: with a channel whose subscriberCount string parses to
the negative number -1, `buildAndFilterResults` emits a record whose
subscriberCount is -1, which is not ≥ 1 — the `=== 0` and `viewCount <
subscriberCount` guards do not exclude negative parses. -/
theorem c1_invariant_counterexample :
    (buildAndFilterResults [fixSearch "v1" "c1"] [fixVideo "v1" "PT4M" "10"]
        [fixChan "c1" "-1"] VideoType.longform emptyAvgMap noFilters 30).map
      (fun r => r.subscriberCount) = [JsNum.num (-1)] ∧
    jsGe (JsNum.num (-1)) (JsNum.num 1) = false := by
  decide

/-- C1 (amended): provided every channel's subscriberCount string parses to a
non-negative number and every video's viewCount string parses to a number (as
the platform's decimal count strings do), every emitted record satisfies
subscriberCount ≥ 1 and viewCount ≥ subscriberCount, and a record is produced
only when both its VideoDetail and ChannelDetail resolved in the join. -/
theorem c1_invariant_amended (searchItems : List YouTubeSearchItem)
    (videoItems : List YouTubeVideoItem) (channelItems : List YouTubeChannelItem)
    (videoType : VideoType) (channelAvgMap : String → Option JsNum)
    (filters : BuildFilterOptions) (maxResults : ℕ)
    (hch : channelItems.all (fun cd =>
      match jsParseInt (cd.statistics.subscriberCount.getD "0") with
      | JsNum.num s => decide (0 ≤ s)
      | JsNum.nan => false) = true)
    (hvd : videoItems.all (fun vd =>
      match jsParseInt (vd.statistics.viewCount.getD "0") with
      | JsNum.num _ => true
      | JsNum.nan => false) = true) :
    (buildAndFilterResults searchItems videoItems channelItems videoType channelAvgMap
      filters maxResults).all (c1check videoItems channelItems) = true := by
  rw [List.all_eq_true]
  intro r hr
  obtain ⟨s, _, hps⟩ := mem_buildAndFilterResults _ _ _ _ _ _ _ r hr
  obtain ⟨vd, cd, hvmem, hvid, hcmem, hcid, hid, hchid, hvc, hsc, hne0, hnlt, -, -, -, -⟩ :=
    processItem_spec _ _ _ _ _ _ _ hps
  rw [List.all_eq_true] at hch hvd
  have h1 := hch cd hcmem
  have h2 := hvd vd hvmem
  rcases jsParseInt_int (cd.statistics.subscriberCount.getD "0") with hnan | ⟨k, hk⟩
  · rw [hnan] at h1
    simp at h1
  rcases jsParseInt_int (vd.statistics.viewCount.getD "0") with hnan | ⟨m, hm⟩
  · rw [hnan] at h2
    simp at h2
  rw [hk] at h1 hsc
  rw [hm] at hvc
  rw [decide_eq_true_eq] at h1
  have hk0 : (0 : ℤ) ≤ k := by exact_mod_cast h1
  have hkne : (k : ℚ) ≠ 0 := by
    rw [hsc] at hne0
    rw [jsEq_num] at hne0
    exact of_decide_eq_false hne0
  have hk1 : (1 : ℤ) ≤ k := by
    have : k ≠ 0 := fun h => hkne (by exact_mod_cast congrArg (fun z : ℤ => (z : ℚ)) h)
    omega
  have hle : (k : ℚ) ≤ (m : ℚ) := by
    rw [hsc, hvc] at hnlt
    rw [jsLt_num] at hnlt
    exact le_of_not_lt (of_decide_eq_false hnlt)
  unfold c1check
  rw [hsc, hvc]
  refine (Bool.and_eq_true _ _).mpr ⟨(Bool.and_eq_true _ _).mpr ⟨?_, ?_⟩, ?_⟩
  · rw [decide_eq_true_eq]
    exact ⟨by exact_mod_cast hk1, hle⟩
  · rw [List.any_eq_true]
    refine ⟨vd, hvmem, ?_⟩
    rw [hvid, hid]
    exact beq_self_eq_true _
  · rw [List.any_eq_true]
    refine ⟨cd, hcmem, ?_⟩
    rw [hcid, hchid]
    exact beq_self_eq_true _

/-- Witness for C1 (amended): a single well-formed record (views 10,
subscribers 2) satisfies the invariant check. -/
theorem c1_invariant_amended_witness :
    (buildAndFilterResults [fixSearch "v1" "c1"] [fixVideo "v1" "PT4M" "10"]
        [fixChan "c1" "2"] VideoType.longform emptyAvgMap noFilters 30).all
      (c1check [fixVideo "v1" "PT4M" "10"] [fixChan "c1" "2"]) = true :=
  c1_invariant_amended _ _ _ _ _ _ _ (by decide) (by decide)

-- ─── C6: contribution score presence ────────────────────────────────────────

/-- A contribution score is produced whenever the guard `channelAvg > 0`
holds, because `calcContributionScore` returns `none` only for a non-positive
average. -/
theorem calcContributionScore_isSome (v a : JsNum) (h : jsGt a (JsNum.num 0) = true) :
    (calcContributionScore v a).isSome = true := by
  cases a with
  | nan => simp [jsGt] at h
  | num q =>
    rw [jsGt_num, decide_eq_true_eq] at h
    unfold calcContributionScore
    rw [jsLe_num, if_neg (by simp [decide_eq_true_eq]; linarith)]
    split_ifs <;> rfl

/-- C6: in every emitted record, contributionScore is present exactly when
channelAvgViews is present (non-null) and greater than 0; a missing or
non-positive channel average always yields a null contributionScore, never a
defaulted score. -/
theorem c6_contribution_presence (searchItems : List YouTubeSearchItem)
    (videoItems : List YouTubeVideoItem) (channelItems : List YouTubeChannelItem)
    (videoType : VideoType) (channelAvgMap : String → Option JsNum)
    (filters : BuildFilterOptions) (maxResults : ℕ) :
    (buildAndFilterResults searchItems videoItems channelItems videoType channelAvgMap
      filters maxResults).all (fun r =>
        r.contributionScore.isSome ==
          (match r.channelAvgViews with
           | some a => jsGt a (JsNum.num 0)
           | none => false)) = true := by
  rw [List.all_eq_true]
  intro r hr
  obtain ⟨s, _, hps⟩ := mem_buildAndFilterResults _ _ _ _ _ _ _ r hr
  obtain ⟨vd, cd, -, -, -, -, -, -, -, -, -, -, -, -, havg, hcontrib⟩ :=
    processItem_spec _ _ _ _ _ _ _ hps
  rw [havg, hcontrib]
  cases ha : channelAvgMap s.snippet.channelId with
  | none => rfl
  | some a =>
    by_cases hg : jsGt a (JsNum.num 0) = true
    · show ((if jsGt a (JsNum.num 0) = true then calcContributionScore r.viewCount a
          else none).isSome == jsGt a (JsNum.num 0)) = true
      rw [if_pos hg, hg, calcContributionScore_isSome r.viewCount a hg]
      rfl
    · rw [Bool.not_eq_true] at hg
      show ((if jsGt a (JsNum.num 0) = true then calcContributionScore r.viewCount a
          else none).isSome == jsGt a (JsNum.num 0)) = true
      rw [hg, if_neg (by simp)]
      rfl

-- ─── C4: output ordering ────────────────────────────────────────────────────

/-- The ordering contract of C4 between two emitted records A (earlier) and B
(later): either A's performance score is strictly greater, or the scores are
equal and A's view-to-subscriber quotient is ≥ B's (JS `>=`). -/
def sortKeyOrder (a b : VideoResult) : Prop :=
  b.performanceScore.score < a.performanceScore.score ∨
    (b.performanceScore.score = a.performanceScore.score ∧
      jsGe a.viewsPerSubscriber b.viewsPerSubscriber = true)

instance : DecidableRel sortKeyOrder := fun a b => by
  unfold sortKeyOrder
  infer_instance

/-- The comparator acceptance `cmpLe` on two records with numeric quotients is
exactly the C4 ordering by (score desc, quotient desc). -/
theorem cmpLe_char (a b : VideoResult) (qa qb : ℚ)
    (ha : a.viewsPerSubscriber = JsNum.num qa) (hb : b.viewsPerSubscriber = JsNum.num qb) :
    (cmpLe a b = true) ↔
      (b.performanceScore.score < a.performanceScore.score ∨
        (b.performanceScore.score = a.performanceScore.score ∧ qb ≤ qa)) := by
  unfold cmpLe sortVal
  by_cases hd : ((b.performanceScore.score : ℤ) - (a.performanceScore.score : ℤ)) ≠ 0
  · rw [if_pos hd]
    simp only [decide_eq_true_eq]
    constructor
    · intro h
      left
      have h' : (b.performanceScore.score : ℤ) - (a.performanceScore.score : ℤ) ≤ 0 := by
        exact_mod_cast h
      omega
    · intro h
      rcases h with h | ⟨heq, -⟩
      · have h' : (b.performanceScore.score : ℤ) - (a.performanceScore.score : ℤ) < 0 := by
          omega
        exact_mod_cast le_of_lt h'
      · exact absurd (by omega :
          ((b.performanceScore.score : ℤ) - (a.performanceScore.score : ℤ)) = 0) hd
  · rw [if_neg hd]
    push_neg at hd
    have hscore : b.performanceScore.score = a.performanceScore.score := by omega
    rw [ha, hb, jsSub_num]
    simp only [decide_eq_true_eq]
    constructor
    · intro h
      exact Or.inr ⟨hscore, by linarith⟩
    · intro h
      rcases h with h | ⟨-, h⟩
      · omega
      · linarith

/-- C4 counterexample: with a video whose viewCount string does not parse
(NaN), a record with a NaN quotient and one with quotient -0.6 both survive
with score 1; the comparator value is NaN, treated as a tie, so the NaN
record stays first — but NaN ≥ -0.6 is false, so the claimed ordering
relation fails between the two emitted records. -/
theorem c4_sorted_counterexample :
    ¬ (buildAndFilterResults [fixSearch "v1" "c1", fixSearch "v2" "c2"]
        [fixVideo "v1" "PT4M" "x", fixVideo "v2" "PT4M" "3"]
        [fixChan "c1" "-5", fixChan "c2" "-5"] VideoType.longform emptyAvgMap
        noFilters 30).Pairwise sortKeyOrder := by
  decide

/-- C4 (amended): provided every emitted record's view-to-subscriber quotient
is a number (which holds whenever the statistic strings parse, as the
platform's decimal count strings do), the output is sorted: for any record A
before a record B, A's score is strictly greater, or the scores are equal and
A's quotient is ≥ B's. -/
theorem c4_sorted_amended (searchItems : List YouTubeSearchItem)
    (videoItems : List YouTubeVideoItem) (channelItems : List YouTubeChannelItem)
    (videoType : VideoType) (channelAvgMap : String → Option JsNum)
    (filters : BuildFilterOptions) (maxResults : ℕ)
    (hnum : (buildAndFilterResults searchItems videoItems channelItems videoType channelAvgMap
      filters maxResults).all (fun r =>
        match r.viewsPerSubscriber with
        | JsNum.num _ => true
        | JsNum.nan => false) = true) :
    (buildAndFilterResults searchItems videoItems channelItems videoType channelAvgMap
      filters maxResults).Pairwise sortKeyOrder := by
  rw [List.all_eq_true] at hnum
  unfold buildAndFilterResults at hnum ⊢
  have hmem : ∀ r ∈ buildLoop (processItem videoItems channelItems videoType channelAvgMap
      filters) maxResults searchItems [], ∃ q, r.viewsPerSubscriber = JsNum.num q := by
    intro r hr
    have hr' : r ∈ jsSortList cmpLe (buildLoop (processItem videoItems channelItems videoType
        channelAvgMap filters) maxResults searchItems []) :=
      ((jsSortList_perm cmpLe _).mem_iff).mpr hr
    have h := hnum r hr'
    cases hv : r.viewsPerSubscriber with
    | nan => rw [hv] at h; simp at h
    | num q => exact ⟨q, rfl⟩
  have hp := pairwise_jsSortList cmpLe
    (buildLoop (processItem videoItems channelItems videoType channelAvgMap filters)
      maxResults searchItems [])
    (by
      intro a haL b hbL
      obtain ⟨qa, hqa⟩ := hmem a haL
      obtain ⟨qb, hqb⟩ := hmem b hbL
      rw [cmpLe_char a b qa qb hqa hqb, cmpLe_char b a qb qa hqb hqa]
      rcases lt_trichotomy b.performanceScore.score a.performanceScore.score with h | h | h
      · exact Or.inl (Or.inl h)
      · rcases le_total qb qa with hq | hq
        · exact Or.inl (Or.inr ⟨h, hq⟩)
        · exact Or.inr (Or.inr ⟨h.symm, hq⟩)
      · exact Or.inr (Or.inl h))
    (by
      intro a haL b hbL c hcL h1 h2
      obtain ⟨qa, hqa⟩ := hmem a haL
      obtain ⟨qb, hqb⟩ := hmem b hbL
      obtain ⟨qc, hqc⟩ := hmem c hcL
      rw [cmpLe_char a b qa qb hqa hqb] at h1
      rw [cmpLe_char b c qb qc hqb hqc] at h2
      rw [cmpLe_char a c qa qc hqa hqc]
      rcases h1 with h1 | ⟨e1, l1⟩ <;> rcases h2 with h2 | ⟨e2, l2⟩
      · exact Or.inl (by omega)
      · exact Or.inl (by omega)
      · exact Or.inl (by omega)
      · exact Or.inr ⟨by omega, le_trans l2 l1⟩)
  refine hp.imp_of_mem ?_
  intro x y hx hy hxy
  have hxL := ((jsSortList_perm cmpLe _).mem_iff).mp hx
  have hyL := ((jsSortList_perm cmpLe _).mem_iff).mp hy
  obtain ⟨qx, hqx⟩ := hmem x hxL
  obtain ⟨qy, hqy⟩ := hmem y hyL
  rcases (cmpLe_char x y qx qy hqx hqy).mp hxy with h | ⟨he, hq⟩
  · exact Or.inl h
  · refine Or.inr ⟨he, ?_⟩
    rw [hqx, hqy, jsGe_num]
    exact decide_eq_true hq

/-- Witness for C4 (amended): two records with numeric quotients 20 and 5 come
out sorted. -/
theorem c4_sorted_amended_witness :
    (buildAndFilterResults [fixSearch "v1" "c1", fixSearch "v2" "c2"]
        [fixVideo "v1" "PT4M" "10", fixVideo "v2" "PT4M" "40"]
        [fixChan "c1" "2", fixChan "c2" "2"] VideoType.longform emptyAvgMap
        noFilters 30).Pairwise sortKeyOrder :=
  c4_sorted_amended _ _ _ _ _ _ _ (by decide)

-- ─── C9: order independence for equal keys ──────────────────────────────────

/-- The C9 fixture: two surviving videos of the same channel with identical
view counts, hence identical sort keys (score 3, quotient 1). -/
def c9Videos : List YouTubeVideoItem :=
  [fixVideo "v1" "PT4M" "100", fixVideo "v2" "PT4M" "100"]

/-- The C9 fixture channel (100 subscribers). -/
def c9Channels : List YouTubeChannelItem := [fixChan "c1" "100"]

/-- C9 counterexample: the two orderings of the same pair of equal-key search
items admit the same surviving records, yet the outputs differ — the sort is
stable, so equal-key records keep their input order and the final order is
NOT independent of the input order. -/
theorem c9_order_counterexample :
    (buildAndFilterResults [fixSearch "v1" "c1", fixSearch "v2" "c1"] c9Videos c9Channels
        VideoType.longform emptyAvgMap noFilters 30).map (fun r => r.id) = ["v1", "v2"] ∧
    (buildAndFilterResults [fixSearch "v2" "c1", fixSearch "v1" "c1"] c9Videos c9Channels
        VideoType.longform emptyAvgMap noFilters 30).map (fun r => r.id) = ["v2", "v1"] ∧
    (buildAndFilterResults [fixSearch "v1" "c1", fixSearch "v2" "c1"] c9Videos c9Channels
        VideoType.longform emptyAvgMap noFilters 30).map
      (fun r => (r.performanceScore.score, r.viewsPerSubscriber)) =
      [(3, JsNum.num 1), (3, JsNum.num 1)] ∧
    buildAndFilterResults [fixSearch "v1" "c1", fixSearch "v2" "c1"] c9Videos c9Channels
        VideoType.longform emptyAvgMap noFilters 30 ≠
      buildAndFilterResults [fixSearch "v2" "c1", fixSearch "v1" "c1"] c9Videos c9Channels
        VideoType.longform emptyAvgMap noFilters 30 := by
  refine ⟨by decide, by decide, by decide, ?_⟩
  intro h
  have := congrArg (fun l => l.map (fun r => r.id)) h
  simp only at this
  revert this
  decide

/-- C9 (amended): when two search-item lists admit the same surviving records
into the accumulator (as a multiset), the two outputs are permutations of
each other; equal-key records keep their accumulator (input) order, so the
output sequences themselves may differ. -/
theorem c9_order_amended (l1 l2 : List YouTubeSearchItem)
    (videoItems : List YouTubeVideoItem) (channelItems : List YouTubeChannelItem)
    (videoType : VideoType) (channelAvgMap : String → Option JsNum)
    (filters : BuildFilterOptions) (maxResults : ℕ)
    (h : List.Perm
      (buildLoop (processItem videoItems channelItems videoType channelAvgMap filters)
        maxResults l1 [])
      (buildLoop (processItem videoItems channelItems videoType channelAvgMap filters)
        maxResults l2 [])) :
    List.Perm
      (buildAndFilterResults l1 videoItems channelItems videoType channelAvgMap filters
        maxResults)
      (buildAndFilterResults l2 videoItems channelItems videoType channelAvgMap filters
        maxResults) := by
  unfold buildAndFilterResults
  exact (jsSortList_perm cmpLe _).trans (h.trans (jsSortList_perm cmpLe _).symm)

/-- Witness for C9 (amended): the two orderings of the C9 fixture yield
outputs that are permutations of each other. -/
theorem c9_order_amended_witness :
    List.Perm
      (buildAndFilterResults [fixSearch "v1" "c1", fixSearch "v2" "c1"] c9Videos c9Channels
        VideoType.longform emptyAvgMap noFilters 30)
      (buildAndFilterResults [fixSearch "v2" "c1", fixSearch "v1" "c1"] c9Videos c9Channels
        VideoType.longform emptyAvgMap noFilters 30) :=
  c9_order_amended _ _ _ _ _ _ _ _ (by decide)

-- ─── C10: result budget of the orchestrator ─────────────────────────────────

/-- The C10 fixture: 31 distinct surviving videos of one channel. -/
def c10Search : List YouTubeSearchItem :=
  (List.range 31).map fun i => fixSearch ("v" ++ toString i) "c0"

/-- The 31 video details of the C10 fixture. -/
def c10Videos : List YouTubeVideoItem :=
  (List.range 31).map fun i => fixVideo ("v" ++ toString i) "PT4M" "7"

/-- The single channel of the C10 fixture (7 subscribers). -/
def c10Channels : List YouTubeChannelItem := [fixChan "c0" "7"]

/-- C10: the route handler invokes `buildAndFilterResults` with a result
budget of 100 (not the function's default 30), so every response carries at
most 100 records with `total` equal to their number — and a request can
produce more than 30 records, e.g. 31 on the C10 fixture. -/
theorem c10_result_budget :
    (∀ (searchItems : List YouTubeSearchItem) (videoItems : List YouTubeVideoItem)
        (channelItems : List YouTubeChannelItem) (videoType : VideoType)
        (channelAvgMap : String → Option JsNum) (filters : BuildFilterOptions),
      (routeBuildStage searchItems videoItems channelItems videoType channelAvgMap
        filters).videos.length ≤ 100 ∧
      (routeBuildStage searchItems videoItems channelItems videoType channelAvgMap
        filters).total =
        (routeBuildStage searchItems videoItems channelItems videoType channelAvgMap
          filters).videos.length) ∧
    (routeBuildStage c10Search c10Videos c10Channels VideoType.longform emptyAvgMap
      noFilters).videos.length = 31 := by
  constructor
  · intro searchItems videoItems channelItems videoType channelAvgMap filters
    constructor
    · show (buildAndFilterResults searchItems videoItems channelItems videoType channelAvgMap
        filters 100).length ≤ 100
      unfold buildAndFilterResults
      rw [(jsSortList_perm cmpLe _).length_eq]
      exact buildLoop_length_le _ 100 searchItems [] (by simp)
    · rfl
  · decide
